import Mathlib

/-!
A verification development for the `smart_traffic_light` launcher
(`launcher.py`) and the training-telemetry store it drives.

The launcher code (`ProjectLauncher` in `launcher.py`) is embedded shallowly:
each menu operation is a pure Lean function from the launcher state and the
behaviour of the external collaborators (traffic system, configuration
provider) to the ordered list of observable actions it performs, plus the
updated launcher state.  The telemetry store (`database.py`) is not part of
the visible sources; its session-lifecycle operations are modelled from the
specification and marked as such in their doc comments.  An interpreter
`applyTrace` replays a launcher action trace against the modelled store, so
that end-to-end properties (double close, signal-triggered shutdown) can be
stated about real launcher control flow.
-/

namespace SmartTraffic

/-- Severity level of an event-log entry (`log_event` first argument). -/
inductive Level where
  | INFO
  | WARNING
  | ERROR
  deriving DecidableEq

/-- A scalar configuration value: a float (modelled as `Rat`) or an int.
Only these two shapes occur in the snapshot built in `launcher.py` lines
171-177. -/
inductive CVal where
  | r (x : Rat)
  | i (n : Int)
  deriving DecidableEq

/-- The `config.training` sub-object, as read by `start_training`
(`launcher.py` lines 172-174). -/
structure TrainingCfg where
  target_efficiency : Rat
  target_mobility : Rat
  max_episodes : Int
  deriving DecidableEq

/-- The `config.agent` sub-object (`launcher.py` line 175). -/
structure AgentCfg where
  learning_rate : Rat
  deriving DecidableEq

/-- The `config.environment` sub-object (`launcher.py` line 176). -/
structure EnvironmentCfg where
  num_vehicles : Int
  deriving DecidableEq

/-- The nested configuration object returned by
`config_manager.get_config()`. -/
structure Config where
  training : TrainingCfg
  agent : AgentCfg
  environment : EnvironmentCfg
  deriving DecidableEq

/-- The configuration manager: the nested config plus the `config_file`
path printed by `start_training` (`launcher.py` line 165). -/
structure ConfigManager where
  config_file : String
  config : Config
  deriving DecidableEq

/-- A wall-clock time at second resolution, the input of
`datetime.now().strftime('%Y%m%d_%H%M%S')` (`launcher.py` line 159). -/
structure DateTime where
  year : Nat
  month : Nat
  day : Nat
  hour : Nat
  minute : Nat
  second : Nat
  deriving DecidableEq

/-- A calendar-plausible datetime; in particular each field fits in the
fixed-width decimal slot that `strftime` renders it to. -/
def validDT (d : DateTime) : Prop :=
  d.year < 10000 ∧ 1 ≤ d.month ∧ d.month ≤ 12 ∧ 1 ≤ d.day ∧ d.day ≤ 31
    ∧ d.hour < 24 ∧ d.minute < 60 ∧ d.second < 60

/-- Two-digit zero-padded decimal rendering (`strftime` `%m`, `%d`, `%H`,
`%M`, `%S` for in-range values). -/
def pad2 (n : Nat) : List Char :=
  [Nat.digitChar (n / 10), Nat.digitChar (n % 10)]

/-- Four-digit zero-padded decimal rendering (`strftime` `%Y` for years
below 10000). -/
def pad4 (n : Nat) : List Char :=
  [Nat.digitChar (n / 1000), Nat.digitChar (n / 100 % 10),
   Nat.digitChar (n / 10 % 10), Nat.digitChar (n % 10)]

/-- `datetime.strftime('%Y%m%d_%H%M%S')`: the timestamp part of a session
id (`launcher.py` line 159). -/
def formatTS (d : DateTime) : String :=
  String.mk (pad4 d.year ++ pad2 d.month ++ pad2 d.day ++ ['_']
    ++ pad2 d.hour ++ pad2 d.minute ++ pad2 d.second)

/-- The session id generated by `start_training` (`launcher.py` line 159):
the literal tag `train_` followed by the second-resolution timestamp. -/
def sessionIdStr (d : DateTime) : String :=
  "train_" ++ formatTS d

/-- The observable actions of the launcher: console output, prompts, and
every call it makes into the traffic system or the telemetry store. -/
inductive Action where
  | print (msg : String)
  | inputPrompt (msg : String)
  | genSessionId (sid : String)
  | getConfig
  | start_training_session (sid : String) (config : List (String × CVal))
  | log_event (level : Level) (source : String) (msg : String)
  | run_training
  | run_auto_training
  | run_deployment
  | end_training_session (sid : String) (result : List (String × String))
  | closeDatabase
  | menuOp (method : String)
  | exitProcess (code : Nat)
  deriving DecidableEq

/-- Which traffic-system class the imported module exposes: `launcher.py`
lines 184 and 190 probe `IntegratedTrafficSystem` and
`AutoSmartTrafficSystem` with `hasattr`. -/
inductive TrafficClass where
  | integrated
  | autoSmart
  | neither
  deriving DecidableEq

/-- Behaviour of the external traffic system during one launcher call:
whether the module imported at all (`TRAFFIC_SYSTEM_AVAILABLE`), which
class it exposes, and what `initialize()` and the blocking run entry point
do (`Except.error e` models a raised exception with message `e`). -/
structure TrafficEnv where
  available : Bool
  cls : TrafficClass
  initResult : Except String Bool
  runResult : Except String Unit

/-- The mutable fields of `ProjectLauncher` that the embedded operations
touch: `config_manager` (`none` iff `CONFIG_AVAILABLE` is false),
`database` (whether `DATABASE_AVAILABLE` / `self.database` is set), and
`current_session_id`. -/
structure Launcher where
  config_manager : Option ConfigManager
  database : Bool
  current_session_id : Option String
  deriving DecidableEq

/-- The flat hyperparameter snapshot `config_dict` built by
`start_training` (`launcher.py` lines 171-177): exactly five scalar keys
read from the nested config object, with no validation of any kind. -/
def configSnapshot (c : Config) : List (String × CVal) :=
  [("target_efficiency", CVal.r c.training.target_efficiency),
   ("target_mobility", CVal.r c.training.target_mobility),
   ("max_episodes", CVal.i c.training.max_episodes),
   ("learning_rate", CVal.r c.agent.learning_rate),
   ("num_vehicles", CVal.i c.environment.num_vehicles)]

/-- The `try` block of `start_training` (`launcher.py` lines 182-198):
returns the actions performed and `some e` when an exception with message
`e` escapes the block (from `initialize()` or from the run call).  The
`else` branch (line 196-198) prints and returns; the `finally` block of
the caller still runs in every case. -/
def trainingTry (env : TrafficEnv) (sid : String) : List Action × Option String :=
  match env.cls with
  | TrafficClass.integrated =>
    match env.initResult with
    | Except.error e => ([], some e)
    | Except.ok false => ([], none)
    | Except.ok true =>
      match env.runResult with
      | Except.ok _ =>
          ([Action.print ("🎯 训练会话ID: " ++ sid), Action.run_training], none)
      | Except.error e =>
          ([Action.print ("🎯 训练会话ID: " ++ sid), Action.run_training], some e)
  | TrafficClass.autoSmart =>
    match env.initResult with
    | Except.error e => ([], some e)
    | Except.ok false => ([], none)
    | Except.ok true =>
      match env.runResult with
      | Except.ok _ =>
          ([Action.print ("🎯 训练会话ID: " ++ sid), Action.run_auto_training], none)
      | Except.error e =>
          ([Action.print ("🎯 训练会话ID: " ++ sid), Action.run_auto_training], some e)
  | TrafficClass.neither => ([Action.print "❌ 无法找到交通系统类"], none)

/-- The config-provider actions of `start_training` (`launcher.py` lines
163-165): fetch the nested config and print the config-file path, only
when `CONFIG_AVAILABLE`. -/
def cfgActsOf (s : Launcher) : List Action :=
  match s.config_manager with
  | some cm => [Action.getConfig,
      Action.print ("📋 使用配置文件: " ++ cm.config_file)]
  | none => []

/-- The `config_dict` value built by `start_training` (`launcher.py` lines
169-177): the flat snapshot when the provider is available, the empty
dict otherwise. -/
def configDictOf (s : Launcher) : List (String × CVal) :=
  match s.config_manager with
  | some cm => configSnapshot cm.config
  | none => []

/-- The database registration actions of `start_training` (`launcher.py`
lines 168-180): register the session and write the INFO event, only when
`DATABASE_AVAILABLE`. -/
def dbActsOf (s : Launcher) (sid : String) : List Action :=
  if s.database then
    [Action.start_training_session sid (configDictOf s),
     Action.log_event Level.INFO "launcher" ("开始训练会话: " ++ sid)]
  else []

/-- The `except Exception` handler of `start_training` (`launcher.py`
lines 200-203): print the diagnostic and, when the database is available,
write the ERROR event. -/
def excActsOf (s : Launcher) (exc : Option String) : List Action :=
  match exc with
  | none => []
  | some e =>
      Action.print ("❌ 训练启动失败: " ++ e) ::
        (if s.database then
          [Action.log_event Level.ERROR "launcher" ("训练启动失败: " ++ e)]
        else [])

/-- The `finally` block of `start_training` (`launcher.py` lines 205-208):
close the session with the fixed result `{"status": "completed"}` whenever
the database is available (the session id, a nonempty string, is always
set at this point). -/
def finActsOf (s : Launcher) (sid : String) : List Action :=
  if s.database then
    [Action.end_training_session sid [("status", "completed")]]
  else []

/-- `ProjectLauncher.start_training` (`launcher.py` lines 150-208) as a
trace of actions plus the updated launcher state.  Fidelity notes: the
session id is assigned before anything else once the traffic system is
known to be available; the config-file print happens only when the
configuration provider is available; registration and the INFO event
happen only when the database is available; the `finally` close runs on
every path that entered the `try`, with the fixed result
`{"status": "completed"}` (line 208). -/
def start_training (env : TrafficEnv) (now : DateTime) (s : Launcher) :
    List Action × Launcher :=
  if env.available = false then
    ([Action.print "\n🎓 启动训练模式",
      Action.print "❌ 交通系统不可用，请检查模块安装"], s)
  else
    let sid := sessionIdStr now
    (Action.print "\n🎓 启动训练模式" :: Action.genSessionId sid ::
       (cfgActsOf s ++ dbActsOf s sid ++ (trainingTry env sid).1
         ++ excActsOf s (trainingTry env sid).2 ++ finActsOf s sid),
     { s with current_session_id := some sid })

/-- The `try` block of `start_deployment` (`launcher.py` lines 221-230):
only `IntegratedTrafficSystem` supports deployment; any other module shape
prints the unavailable message. -/
def deploymentTry (env : TrafficEnv) : List Action × Option String :=
  match env.cls with
  | TrafficClass.integrated =>
    match env.initResult with
    | Except.error e => ([], some e)
    | Except.ok false => ([], none)
    | Except.ok true =>
      match env.runResult with
      | Except.ok _ =>
          ([Action.print "🚀 部署模式运行中...",
            Action.print "打开浏览器访问 http://localhost:5000 查看监控界面",
            Action.run_deployment], none)
      | Except.error e =>
          ([Action.print "🚀 部署模式运行中...",
            Action.print "打开浏览器访问 http://localhost:5000 查看监控界面",
            Action.run_deployment], some e)
  | TrafficClass.autoSmart => ([Action.print "❌ 部署功能不可用"], none)
  | TrafficClass.neither => ([Action.print "❌ 部署功能不可用"], none)

/-- `ProjectLauncher.start_deployment` (`launcher.py` lines 210-233).  It
never touches the session registry, the event log, or
`current_session_id`. -/
def start_deployment (env : TrafficEnv) (s : Launcher) :
    List Action × Launcher :=
  if env.available = false then
    ([Action.print "\n🚀 启动部署模式", Action.print "❌ 交通系统不可用"], s)
  else
    let t := deploymentTry env
    let excActs : List Action :=
      match t.2 with
      | none => []
      | some e => [Action.print ("❌ 部署启动失败: " ++ e)]
    (Action.print "\n🚀 启动部署模式" ::
       Action.print "部署模式将使用已训练的模型进行交通控制" ::
       Action.inputPrompt "按回车键继续..." :: (t.1 ++ excActs), s)

/-- `ProjectLauncher.shutdown` (`launcher.py` lines 610-619): when the
database handle exists, close the current session (if any) with result
`{"status": "stopped"}` and then close the store. -/
def shutdown (s : Launcher) : List Action :=
  Action.print "\n🛑 正在关闭系统..." ::
    ((if s.database then
        (match s.current_session_id with
         | some sid => [Action.end_training_session sid [("status", "stopped")]]
         | none => []) ++ [Action.closeDatabase]
      else []) ++
     [Action.print "✅ 系统已安全关闭"])

/-- `ProjectLauncher._signal_handler` (`launcher.py` lines 95-99): on
SIGINT, print, run `shutdown`, then `sys.exit(0)`. -/
def signal_handler (s : Launcher) : List Action :=
  Action.print "\n🛑 接收到中断信号，正在安全关闭..." ::
    (shutdown s ++ [Action.exitProcess 0])

/-- What the dispatched menu operation did from the point of view of the
`try` block of `show_main_menu` (`launcher.py` lines 118-148): it returned
normally, raised an exception with message `e` (caught by
`except Exception`), or raised `KeyboardInterrupt`. -/
inductive OpOutcome where
  | ok
  | raised (e : String)
  | interrupted
  deriving DecidableEq

/-- The separator line `"=" * 60` printed by the main menu. -/
def sepLine : String := String.mk (List.replicate 60 '=')

/-- The menu banner and prompt printed at the top of every iteration of
`show_main_menu` (`launcher.py` lines 104-119). -/
def menuHeader : List Action :=
  [Action.print ("\n" ++ sepLine),
   Action.print "🚦 智能交通信号灯控制系统 - 项目启动器",
   Action.print sepLine,
   Action.print "1. 🎓 开始训练 (推荐)",
   Action.print "2. 🚀 部署模式",
   Action.print "3. 📊 性能分析",
   Action.print "4. 🔧 配置管理",
   Action.print "5. 📋 数据库管理",
   Action.print "6. 🌐 Web监控",
   Action.print "7. 📖 系统信息",
   Action.print "8. 🏗️ 项目设置",
   Action.print "0. 🚪 退出",
   Action.print sepLine,
   Action.inputPrompt "请选择操作 (0-8): "]

/-- The dispatch chain of `show_main_menu` (`launcher.py` lines 121-141)
for the case in which the chosen operation returns normally.  Choices 1
and 2 run the embedded operations; the sub-menus 3-8 are recorded as
opaque `menuOp` calls; choice 0 shuts down and leaves the loop; anything
else prints the invalid-choice message.  The returned `Bool` is whether
the `while True` loop continues. -/
def menuDispatch (env : TrafficEnv) (now : DateTime) (s : Launcher)
    (choice : String) : List Action × Launcher × Bool :=
  if choice = "1" then
    let r := start_training env now s
    (r.1, r.2, true)
  else if choice = "2" then
    let r := start_deployment env s
    (r.1, r.2, true)
  else if choice = "3" then ([Action.menuOp "performance_analysis"], s, true)
  else if choice = "4" then ([Action.menuOp "config_management"], s, true)
  else if choice = "5" then ([Action.menuOp "database_management"], s, true)
  else if choice = "6" then ([Action.menuOp "web_monitoring"], s, true)
  else if choice = "7" then ([Action.menuOp "show_system_info"], s, true)
  else if choice = "8" then ([Action.menuOp "project_setup"], s, true)
  else if choice = "0" then (shutdown s, s, false)
  else ([Action.print "❌ 无效选择，请输入 0-8"], s, true)

/-- One iteration of the `while True` loop of `show_main_menu`
(`launcher.py` lines 101-148).  `outcome` abstracts where in the `try`
body an exception (if any) arose: `raised e` is caught by
`except Exception as e` (line 147), which prints the diagnostic and loops;
`interrupted` is caught by `except KeyboardInterrupt` (line 143), which
shuts down and leaves the loop. -/
def menuIteration (env : TrafficEnv) (now : DateTime) (s : Launcher)
    (choice : String) (outcome : OpOutcome) : List Action × Launcher × Bool :=
  match outcome with
  | OpOutcome.interrupted =>
      (menuHeader ++ (Action.print "\n" :: shutdown s), s, false)
  | OpOutcome.raised e =>
      (menuHeader ++ [Action.print ("❌ 操作错误: " ++ e)], s, true)
  | OpOutcome.ok =>
      let d := menuDispatch env now s choice
      (menuHeader ++ d.1, d.2.1, d.2.2)

/-- One stored session record.  Modelled from the spec: `database.py` is
not among the visible sources; fields follow spec §3 (Session): status,
start/end time, config snapshot, running totals, result payload. -/
structure Session where
  config : List (String × CVal)
  start_time : Nat
  end_time : Option Nat
  status : String
  result : Option (List (String × String))
  total_episodes : Nat
  best_score : Rat
  deriving DecidableEq

/-- The telemetry store.  Modelled from the spec: sessions keyed by id,
an append-only event log, and the set of files written by exports. -/
structure Store where
  sessions : List (String × Session)
  events : List (Level × String × String)
  files : List String
  deriving DecidableEq

/-- Association-list lookup of a session by id. -/
def lookupSession : List (String × Session) → String → Option Session
  | [], _ => none
  | (k, v) :: rest, sid => if k = sid then some v else lookupSession rest sid

/-- Replace the record stored under `sid` (first occurrence), leaving the
list unchanged when `sid` is absent. -/
def setSession : List (String × Session) → String → Session → List (String × Session)
  | [], _, _ => []
  | (k, v) :: rest, sid, sess =>
      if k = sid then (sid, sess) :: rest else (k, v) :: setSession rest sid sess

/-- The terminal lifecycle states of spec §3. -/
def terminalStatuses : List String := ["completed", "stopped", "failed"]

/-- Modelled from the spec (§4.1): the terminal state derived from
`result.status` — one of `completed`/`stopped`/`failed`; any other payload
is mapped to `failed`. -/
def deriveStatus (result : List (String × String)) : String :=
  let st := (result.lookup "status").getD "failed"
  if st ∈ terminalStatuses then st else "failed"

/-- Modelled from the spec: `database.start_training_session` is not in
the visible sources.  Spec §4.1 `start_session`: creates a new session in
`running` state with the given immutable config snapshot and zeroed
totals; a duplicate id is a reported error and the store is unchanged. -/
def start_training_session (store : Store) (sid : String)
    (config : List (String × CVal)) (now : Nat) : Store :=
  match lookupSession store.sessions sid with
  | some _ => store
  | none =>
      { store with sessions :=
          (sid, { config := config, start_time := now, end_time := none,
                  status := "running", result := none,
                  total_episodes := 0, best_score := 0 }) :: store.sessions }

/-- The record written back by the modelled `end_session` when it closes a
running session: terminal status derived from the result, stamped end
time, stored result payload. -/
def closedSession (sess : Session) (result : List (String × String))
    (now : Nat) : Session :=
  { sess with status := deriveStatus result,
              end_time := some now, result := some result }

/-- Modelled from the spec: `database.end_training_session` is not in the
visible sources.  Spec §4.1 `end_session`: transitions a `running` session
to the terminal state derived from `result.status`, stamps the end time
and stores the result payload; calling it on an already-terminal session
(or an unknown id) is a reported no-op that leaves the store unchanged. -/
def end_training_session (store : Store) (sid : String)
    (result : List (String × String)) (now : Nat) : Store :=
  match lookupSession store.sessions sid with
  | none => store
  | some sess =>
      if sess.status ∈ terminalStatuses then store
      else
        { store with sessions :=
            setSession store.sessions sid (closedSession sess result now) }

/-- Modelled from the spec: `database.log_event` is not in the visible
sources.  Spec §4.2: appends one immutable record in write order. -/
def log_event (store : Store) (level : Level) (source msg : String) : Store :=
  { store with events := store.events ++ [(level, source, msg)] }

/-- Modelled from the spec: `database.export_data` is not in the visible
sources.  Spec §4.5 `export`: serializes the session record to
`destination`; returns failure — creating no file — when the session is
unknown or the destination is not writable; the failure is a result, not
an exception. -/
def export_data (store : Store) (sid dest : String) (writable : Bool) :
    Bool × Store :=
  match lookupSession store.sessions sid with
  | none => (false, store)
  | some _ =>
      if writable then (true, { store with files := store.files ++ [dest] })
      else (false, store)

/-- Replaying one launcher action against the modelled store.  Console
actions, prompts, and calls into the traffic system do not touch the
store; `closeDatabase` closes the handle without altering stored data. -/
def applyAction (now : Nat) (store : Store) (a : Action) : Store :=
  match a with
  | Action.start_training_session sid cfg => start_training_session store sid cfg now
  | Action.end_training_session sid result => end_training_session store sid result now
  | Action.log_event lv src msg => log_event store lv src msg
  | _ => store

/-- Replaying a launcher action trace, in order, against the store. -/
def applyTrace (now : Nat) (store : Store) (l : List Action) : Store :=
  List.foldl (applyAction now) store l

/-- The export branch of `database_management` (`launcher.py` lines
415-435) for a chosen session id: builds `export_<sid>.json`, calls
`export_data`, and prints the confirmation only when the export
succeeded — there is no success path on failure. -/
def exportMenuAction (store : Store) (sid : String) (writable : Bool) :
    List Action × Store :=
  let export_path := "export_" ++ sid ++ ".json"
  let r := export_data store sid export_path writable
  ((if r.1 then [Action.print ("✅ 数据已导出到: " ++ export_path)] else []), r.2)

/-- A concrete configuration for witnesses, mirroring the sample values in
`setup.py`. -/
def cfg0 : Config :=
  { training := { target_efficiency := 3 / 4, target_mobility := 4 / 5,
                  max_episodes := 1000 },
    agent := { learning_rate := 1 / 1000 },
    environment := { num_vehicles := 30 } }

/-- A concrete config manager for witnesses. -/
def cm0 : ConfigManager := { config_file := "config.yaml", config := cfg0 }

/-- A concrete wall-clock time for witnesses. -/
def now0 : DateTime :=
  { year := 2024, month := 1, day := 2, hour := 3, minute := 4, second := 5 }

/-- A second concrete wall-clock time, one second later. -/
def now1 : DateTime :=
  { year := 2024, month := 1, day := 2, hour := 3, minute := 4, second := 6 }

/-- A traffic environment in which the integrated system initializes and
runs to completion. -/
def envOk : TrafficEnv :=
  { available := true, cls := TrafficClass.integrated,
    initResult := Except.ok true, runResult := Except.ok () }

/-- A traffic environment in which the run raises an exception. -/
def envBoom : TrafficEnv :=
  { available := true, cls := TrafficClass.integrated,
    initResult := Except.ok true, runResult := Except.error "boom" }

/-- A launcher state with all components available and no current
session. -/
def sFull : Launcher :=
  { config_manager := some cm0, database := true, current_session_id := none }

/-- A launcher state without the configuration provider or the database. -/
def sNoDb : Launcher :=
  { config_manager := none, database := false, current_session_id := none }

/-- An empty store. -/
def store0 : Store := { sessions := [], events := [], files := [] }

/-- A freshly started (running) session record. -/
def sessRun : Session :=
  { config := [], start_time := 0, end_time := none, status := "running",
    result := none, total_episodes := 0, best_score := 0 }

/-- A store holding one running session under the id generated at
`now0`. -/
def storeRun : Store :=
  { sessions := [(sessionIdStr now0, sessRun)], events := [], files := [] }

theorem lookup_setSession (l : List (String × Session)) (sid : String)
    (s0 s1 : Session) (h : lookupSession l sid = some s0) :
    lookupSession (setSession l sid s1) sid = some s1 := by
  induction l with
  | nil => simp [lookupSession] at h
  | cons p rest ih =>
    obtain ⟨k, v⟩ := p
    by_cases hk : k = sid
    · subst hk
      simp [lookupSession, setSession]
    · simp only [lookupSession, setSession, if_neg hk] at h ⊢
      exact ih h

theorem deriveStatus_mem (r : List (String × String)) :
    deriveStatus r ∈ terminalStatuses := by
  by_cases h : ((r.lookup "status").getD "failed") ∈ terminalStatuses
  · simp only [deriveStatus]
    rw [if_pos h]
    exact h
  · simp only [deriveStatus]
    rw [if_neg h]
    simp [terminalStatuses]

theorem end_noop_of_absent (store : Store) (sid : String)
    (r : List (String × String)) (t : Nat)
    (h : lookupSession store.sessions sid = none) :
    end_training_session store sid r t = store := by
  simp [end_training_session, h]

theorem end_noop_of_terminal (store : Store) (sid : String) (sess : Session)
    (r : List (String × String)) (t : Nat)
    (h : lookupSession store.sessions sid = some sess)
    (ht : sess.status ∈ terminalStatuses) :
    end_training_session store sid r t = store := by
  simp [end_training_session, h, ht]

theorem end_run_sessions (store : Store) (sid : String) (sess : Session)
    (r : List (String × String)) (t : Nat)
    (h : lookupSession store.sessions sid = some sess)
    (ht : sess.status ∉ terminalStatuses) :
    end_training_session store sid r t
      = { store with sessions :=
            setSession store.sessions sid (closedSession sess r t) } := by
  simp [end_training_session, h, ht]

theorem end_end (store : Store) (sid : String) (r1 r2 : List (String × String))
    (t1 t2 : Nat) :
    end_training_session (end_training_session store sid r1 t1) sid r2 t2
      = end_training_session store sid r1 t1 := by
  rcases h : lookupSession store.sessions sid with _ | sess
  · rw [end_noop_of_absent store sid r1 t1 h, end_noop_of_absent store sid r2 t2 h]
  · by_cases ht : sess.status ∈ terminalStatuses
    · rw [end_noop_of_terminal store sid sess r1 t1 h ht]
      exact end_noop_of_terminal store sid sess r2 t2 h ht
    · have h2 : lookupSession (end_training_session store sid r1 t1).sessions sid
          = some (closedSession sess r1 t1) := by
        rw [end_run_sessions store sid sess r1 t1 h ht]
        exact lookup_setSession _ _ _ _ h
      exact end_noop_of_terminal _ sid _ r2 t2 h2
        (by simpa [closedSession] using deriveStatus_mem r1)

theorem applyTrace_append (t : Nat) (store : Store) (l1 l2 : List Action) :
    applyTrace t store (l1 ++ l2) = applyTrace t (applyTrace t store l1) l2 := by
  simp [applyTrace]

theorem start_training_state (env : TrafficEnv) (now : DateTime) (s : Launcher)
    (ha : env.available = true) :
    (start_training env now s).2
      = { s with current_session_id := some (sessionIdStr now) } := by
  simp [start_training, ha]

theorem start_training_trace (env : TrafficEnv) (now : DateTime) (s : Launcher)
    (ha : env.available = true) :
    (start_training env now s).1
      = Action.print "\n🎓 启动训练模式"
          :: Action.genSessionId (sessionIdStr now)
          :: (cfgActsOf s ++ dbActsOf s (sessionIdStr now)
               ++ (trainingTry env (sessionIdStr now)).1
               ++ excActsOf s ((trainingTry env (sessionIdStr now)).2)
               ++ finActsOf s (sessionIdStr now)) := by
  simp [start_training, ha]

theorem trainingTry_actions (env : TrafficEnv) (sid : String) :
    ∀ a ∈ (trainingTry env sid).1,
      a = Action.print ("🎯 训练会话ID: " ++ sid) ∨ a = Action.run_training
        ∨ a = Action.run_auto_training ∨ a = Action.print "❌ 无法找到交通系统类" := by
  intro a ha
  rcases env with ⟨avail, cls, initRes, runRes⟩
  rcases cls <;> rcases initRes with e | b <;> try rcases b
  all_goals try rcases runRes with e2 | u
  all_goals try simp [trainingTry] at ha
  all_goals tauto

theorem deploymentTry_actions (env : TrafficEnv) :
    ∀ a ∈ (deploymentTry env).1,
      a = Action.print "🚀 部署模式运行中..."
        ∨ a = Action.print "打开浏览器访问 http://localhost:5000 查看监控界面"
        ∨ a = Action.run_deployment ∨ a = Action.print "❌ 部署功能不可用" := by
  intro a ha
  rcases env with ⟨avail, cls, initRes, runRes⟩
  rcases cls <;> rcases initRes with e | b <;> try rcases b
  all_goals try rcases runRes with e2 | u
  all_goals try simp [deploymentTry] at ha
  all_goals tauto

theorem applyTrace_const (t : Nat) (l : List Action)
    (h : ∀ a ∈ l, ∀ st : Store, applyAction t st a = st) :
    ∀ store : Store, applyTrace t store l = store := by
  induction l with
  | nil => intro store; rfl
  | cons a rest ih =>
    intro store
    have ha := h a (by simp)
    have hrest : ∀ b ∈ rest, ∀ st : Store, applyAction t st b = st :=
      fun b hb => h b (by simp [hb])
    show applyTrace t (applyAction t store a) rest = store
    rw [ha store]
    exact ih hrest store

theorem end_notmem_trainingTry (env : TrafficEnv) (sid' sid : String)
    (r : List (String × String)) :
    Action.end_training_session sid r ∉ (trainingTry env sid').1 := by
  intro hm
  rcases trainingTry_actions env sid' _ hm with h | h | h | h <;> simp at h

theorem start_deployment_actions (env : TrafficEnv) (s : Launcher) :
    ∀ a ∈ (start_deployment env s).1,
      (∃ m, a = Action.print m) ∨ (∃ m, a = Action.inputPrompt m)
        ∨ a = Action.run_deployment := by
  intro a ha
  by_cases h : env.available = false
  · simp [start_deployment, h] at ha
    rcases ha with h1 | h1 <;> simp [h1]
  · rcases h2 : (deploymentTry env).2 with _ | e <;>
      simp [start_deployment, h, h2] at ha
    · rcases ha with h1 | h1 | h1 | h1
      · simp [h1]
      · simp [h1]
      · simp [h1]
      · rcases deploymentTry_actions env a h1 with h3 | h3 | h3 | h3 <;> simp [h3]
    · rcases ha with h1 | h1 | h1 | h1 | h1
      · simp [h1]
      · simp [h1]
      · simp [h1]
      · rcases deploymentTry_actions env a h1 with h3 | h3 | h3 | h3 <;> simp [h3]
      · simp [h1]

theorem end_mem_start_training (env : TrafficEnv) (now : DateTime)
    (s : Launcher) (sid : String) (r : List (String × String))
    (h : Action.end_training_session sid r ∈ (start_training env now s).1) :
    sid = sessionIdStr now ∧ r = [("status", "completed")] := by
  by_cases ha : env.available = false
  · simp [start_training, ha] at h
  · rw [start_training_trace env now s (by revert ha; cases env.available <;> simp)] at h
    rcases s with ⟨cmgr, db, cur⟩
    rcases cmgr with _ | cm <;> rcases db <;>
      rcases h2 : (trainingTry env (sessionIdStr now)).2 with _ | e <;>
        simp [cfgActsOf, dbActsOf, excActsOf, finActsOf, h2,
          end_notmem_trainingTry env (sessionIdStr now) sid r] at h <;>
        tauto

/-- Claim C4: after any exception raised by a menu operation (other than a
keyboard interrupt), the interactive launcher prints a diagnostic and
remains in its main-menu loop: the loop-continue flag is `true`, the
launcher state is returned unchanged to the operator, the diagnostic print
is in the trace, and no process-exit action occurs. -/
theorem c4_menu_loop_survives_errors (env : TrafficEnv) (now : DateTime)
    (s : Launcher) (choice e : String) :
    (menuIteration env now s choice (OpOutcome.raised e)).2.2 = true
    ∧ (menuIteration env now s choice (OpOutcome.raised e)).2.1 = s
    ∧ Action.print ("❌ 操作错误: " ++ e)
        ∈ (menuIteration env now s choice (OpOutcome.raised e)).1
    ∧ ∀ n, Action.exitProcess n
        ∉ (menuIteration env now s choice (OpOutcome.raised e)).1 := by
  refine ⟨rfl, rfl, ?_, ?_⟩
  · simp [menuIteration]
  · intro n
    simp [menuIteration, menuHeader]

/-- Witness for C4 at a concrete input. -/
theorem c4_witness :
    (menuIteration envOk now0 sFull "1" (OpOutcome.raised "boom")).2.2 = true
    ∧ Action.exitProcess 0
        ∉ (menuIteration envOk now0 sFull "1" (OpOutcome.raised "boom")).1 :=
  ⟨(c4_menu_loop_survives_errors envOk now0 sFull "1" "boom").1,
   (c4_menu_loop_survives_errors envOk now0 sFull "1" "boom").2.2.2 0⟩

/-- Claim C2: when SIGINT arrives while a session is current and the
database component is available, the signal handler performs exactly:
close the current session with result `{"status": "stopped"}`, close the
store, and exit the process — in that order; and replaying the trace
against a store in which that session is `running` leaves the session
terminal with status `stopped` and the result payload recorded. -/
theorem c2_sigint_forces_stop (s : Launcher) (sid : String) (store : Store)
    (sess : Session) (t : Nat) (hdb : s.database = true)
    (hcur : s.current_session_id = some sid) :
    signal_handler s
      = [Action.print "\n🛑 接收到中断信号，正在安全关闭...",
         Action.print "\n🛑 正在关闭系统...",
         Action.end_training_session sid [("status", "stopped")],
         Action.closeDatabase,
         Action.print "✅ 系统已安全关闭",
         Action.exitProcess 0]
    ∧ (lookupSession store.sessions sid = some sess → sess.status = "running" →
        lookupSession (applyTrace t store (signal_handler s)).sessions sid
          = some (closedSession sess [("status", "stopped")] t)
        ∧ (closedSession sess [("status", "stopped")] t).status = "stopped") := by
  have htr : signal_handler s
      = [Action.print "\n🛑 接收到中断信号，正在安全关闭...",
         Action.print "\n🛑 正在关闭系统...",
         Action.end_training_session sid [("status", "stopped")],
         Action.closeDatabase,
         Action.print "✅ 系统已安全关闭",
         Action.exitProcess 0] := by
    simp [signal_handler, shutdown, hdb, hcur]
  refine ⟨htr, fun hls hrun => ?_⟩
  have hnt : sess.status ∉ terminalStatuses := by
    simp [hrun, terminalStatuses]
  have hfold : applyTrace t store (signal_handler s)
      = end_training_session store sid [("status", "stopped")] t := by
    rw [htr]
    simp [applyTrace, applyAction]
  rw [hfold, end_run_sessions store sid sess _ t hls hnt]
  refine ⟨lookup_setSession _ _ _ _ hls, ?_⟩
  simp [closedSession]
  decide

/-- Witness for C2 at a concrete input. -/
theorem c2_witness :
    signal_handler
        { config_manager := some cm0, database := true,
          current_session_id := some (sessionIdStr now0) }
      = [Action.print "\n🛑 接收到中断信号，正在安全关闭...",
         Action.print "\n🛑 正在关闭系统...",
         Action.end_training_session (sessionIdStr now0) [("status", "stopped")],
         Action.closeDatabase,
         Action.print "✅ 系统已安全关闭",
         Action.exitProcess 0] :=
  (c2_sigint_forces_stop
    { config_manager := some cm0, database := true,
      current_session_id := some (sessionIdStr now0) }
    (sessionIdStr now0) storeRun sessRun 7 rfl rfl).1

/-- Claim C10: `start_deployment` never mutates the telemetry store: it
leaves the launcher state (including `current_session_id`) unchanged,
replaying its trace leaves any store unchanged, and its trace contains no
session-id generation, no session registration, no event logging, and no
session close. -/
theorem c10_deployment_no_mutation (env : TrafficEnv) (s : Launcher)
    (store : Store) (t : Nat) :
    (start_deployment env s).2 = s
    ∧ applyTrace t store (start_deployment env s).1 = store
    ∧ ∀ a ∈ (start_deployment env s).1,
        (∀ sid, a ≠ Action.genSessionId sid)
        ∧ (∀ sid cfg, a ≠ Action.start_training_session sid cfg)
        ∧ (∀ lv src msg, a ≠ Action.log_event lv src msg)
        ∧ (∀ sid r, a ≠ Action.end_training_session sid r) := by
  refine ⟨?_, ?_, ?_⟩
  · by_cases h : env.available = false <;> simp [start_deployment, h]
  · refine applyTrace_const t _ ?_ store
    intro a ha st
    rcases start_deployment_actions env s a ha with ⟨m, h1⟩ | ⟨m, h1⟩ | h1 <;>
      simp [h1, applyAction]
  · intro a ha
    rcases start_deployment_actions env s a ha with ⟨m, h1⟩ | ⟨m, h1⟩ | h1 <;>
      subst h1 <;>
      exact ⟨fun sid => by simp, fun sid cfg => by simp,
        fun lv src msg => by simp, fun sid r => by simp⟩

/-- Witness for C10 at a concrete input. -/
theorem c10_witness :
    (start_deployment envOk sFull).2 = sFull
    ∧ Action.print "\n🚀 启动部署模式" ≠ Action.genSessionId "train_x" :=
  ⟨(c10_deployment_no_mutation envOk sFull store0 0).1,
   ((c10_deployment_no_mutation envOk sFull store0 0).2.2
      (Action.print "\n🚀 启动部署模式")
      (by simp [start_deployment, envOk])).1 "train_x"⟩

theorem register_notmem_trainingTry (env : TrafficEnv) (sid' sid : String)
    (cfg : List (String × CVal)) :
    Action.start_training_session sid cfg ∉ (trainingTry env sid').1 := by
  intro hm
  rcases trainingTry_actions env sid' _ hm with h | h | h | h <;> simp at h

theorem register_mem_start_training (env : TrafficEnv) (now : DateTime)
    (s : Launcher) (sid : String) (cfg : List (String × CVal))
    (h : Action.start_training_session sid cfg ∈ (start_training env now s).1) :
    sid = sessionIdStr now ∧ cfg = configDictOf s := by
  by_cases ha : env.available = false
  · simp [start_training, ha] at h
  · rw [start_training_trace env now s (by revert ha; cases env.available <;> simp)] at h
    rcases s with ⟨cmgr, db, cur⟩
    rcases cmgr with _ | cm <;> rcases db <;>
      rcases h2 : (trainingTry env (sessionIdStr now)).2 with _ | e <;>
        simp [cfgActsOf, dbActsOf, excActsOf, finActsOf, configDictOf, h2,
          register_notmem_trainingTry env (sessionIdStr now) sid cfg] at h <;>
        tauto

theorem end_mem_shutdown (s : Launcher) (sid : String)
    (r : List (String × String))
    (h : Action.end_training_session sid r ∈ shutdown s) :
    r = [("status", "stopped")] := by
  rcases s with ⟨cmgr, db, cur⟩
  rcases db <;> rcases cur with _ | sid0 <;>
    (simp [shutdown] at h; try tauto)

/-- Claim C1: closing a session twice with different results leaves the
session in the state set by the first close — the second close alters
nothing (end time, status, result payload); and the launcher's own
double-close path (the `finally` close of `start_training` with status
`completed`, followed by a later `shutdown` close of the same session id
with status `stopped`) leaves the whole store exactly as `start_training`
left it. -/
theorem c1_end_session_idempotent :
    (∀ (store : Store) (sid : String) (r1 r2 : List (String × String))
       (t1 t2 : Nat),
       end_training_session (end_training_session store sid r1 t1) sid r2 t2
         = end_training_session store sid r1 t1)
    ∧ (∀ (env : TrafficEnv) (now : DateTime) (s : Launcher) (store : Store)
         (t : Nat), env.available = true →
       applyTrace t (applyTrace t store (start_training env now s).1)
           (shutdown (start_training env now s).2)
         = applyTrace t store (start_training env now s).1) := by
  constructor
  · intro store sid r1 r2 t1 t2
    exact end_end store sid r1 r2 t1 t2
  · intro env now s store t ha
    have hs2 := start_training_state env now s ha
    by_cases hdb : s.database = true
    · have hsplit : (start_training env now s).1
          = (Action.print "\n🎓 启动训练模式"
              :: Action.genSessionId (sessionIdStr now)
              :: (cfgActsOf s ++ dbActsOf s (sessionIdStr now)
                   ++ (trainingTry env (sessionIdStr now)).1
                   ++ excActsOf s ((trainingTry env (sessionIdStr now)).2)))
            ++ [Action.end_training_session (sessionIdStr now)
                  [("status", "completed")]] := by
        rw [start_training_trace env now s ha]
        simp [finActsOf, hdb]
      have hone : ∀ st : Store,
          applyTrace t st
              [Action.end_training_session (sessionIdStr now)
                [("status", "completed")]]
            = end_training_session st (sessionIdStr now)
                [("status", "completed")] t :=
        fun st => rfl
      have hsd : shutdown { s with current_session_id := some (sessionIdStr now) }
          = [Action.print "\n🛑 正在关闭系统...",
             Action.end_training_session (sessionIdStr now) [("status", "stopped")],
             Action.closeDatabase,
             Action.print "✅ 系统已安全关闭"] := by
        simp [shutdown, hdb]
      have htwo : ∀ st : Store,
          applyTrace t st
              [Action.print "\n🛑 正在关闭系统...",
               Action.end_training_session (sessionIdStr now) [("status", "stopped")],
               Action.closeDatabase,
               Action.print "✅ 系统已安全关闭"]
            = end_training_session st (sessionIdStr now)
                [("status", "stopped")] t :=
        fun st => rfl
      rw [hsplit, applyTrace_append, hone, hs2, hsd, htwo]
      exact end_end _ _ _ _ _ _
    · have hdbf : s.database = false := by
        revert hdb; cases s.database <;> simp
      have hsd : shutdown { s with current_session_id := some (sessionIdStr now) }
          = [Action.print "\n🛑 正在关闭系统...",
             Action.print "✅ 系统已安全关闭"] := by
        simp [shutdown, hdbf]
      rw [hs2, hsd]
      rfl

/-- Witness for C1's second conjunct at a concrete input. -/
theorem c1_witness :
    applyTrace 3 (applyTrace 3 store0 (start_training envOk now0 sFull).1)
        (shutdown (start_training envOk now0 sFull).2)
      = applyTrace 3 store0 (start_training envOk now0 sFull).1 :=
  c1_end_session_idempotent.2 envOk now0 sFull store0 3 rfl

/-- Claim C3 (amended): with the traffic system, the database, and the
configuration provider all available, and the training class resolving and
initializing successfully, `start_training` performs — in this order —
session-id generation, configuration capture, session registration via
`start_training_session`, the INFO event write, and only then the blocking
training run. -/
theorem c3_training_control_flow (env : TrafficEnv) (now : DateTime)
    (s : Launcher) (cm : ConfigManager)
    (ha : env.available = true) (hdb : s.database = true)
    (hcm : s.config_manager = some cm)
    (hcls : env.cls = TrafficClass.integrated)
    (hinit : env.initResult = Except.ok true) :
    List.Sublist
      [Action.genSessionId (sessionIdStr now),
       Action.getConfig,
       Action.start_training_session (sessionIdStr now) (configSnapshot cm.config),
       Action.log_event Level.INFO "launcher" ("开始训练会话: " ++ sessionIdStr now),
       Action.run_training]
      (start_training env now s).1 := by
  have htry1 : (trainingTry env (sessionIdStr now)).1
      = [Action.print ("🎯 训练会话ID: " ++ sessionIdStr now), Action.run_training] := by
    rcases hrun : env.runResult with e | u <;> simp [trainingTry, hcls, hinit, hrun]
  rw [start_training_trace env now s ha]
  simp only [cfgActsOf, dbActsOf, configDictOf, hcm, hdb, htry1, if_true,
    List.cons_append, List.nil_append, List.append_assoc]
  refine List.Sublist.cons _ ?_
  refine List.Sublist.cons₂ _ ?_
  refine List.Sublist.cons₂ _ ?_
  refine List.Sublist.cons _ ?_
  refine List.Sublist.cons₂ _ ?_
  refine List.Sublist.cons₂ _ ?_
  refine List.Sublist.cons _ ?_
  refine List.Sublist.cons₂ _ ?_
  exact List.nil_sublist _

/-- Witness for C3's amended theorem at a concrete input. -/
theorem c3_witness :
    List.Sublist
      [Action.genSessionId (sessionIdStr now0),
       Action.getConfig,
       Action.start_training_session (sessionIdStr now0) (configSnapshot cm0.config),
       Action.log_event Level.INFO "launcher" ("开始训练会话: " ++ sessionIdStr now0),
       Action.run_training]
      (start_training envOk now0 sFull).1 :=
  c3_training_control_flow envOk now0 sFull cm0 rfl rfl rfl rfl rfl

/-- Counterexample for C3 as stated: at an input where the traffic system
is available but the database component is not, `start_training` registers
no session and writes no INFO event, so the claimed step sequence does not
occur in its trace. -/
theorem c3_counterexample :
    ¬ List.Sublist
        [Action.genSessionId (sessionIdStr now0),
         Action.getConfig,
         Action.start_training_session (sessionIdStr now0) [],
         Action.log_event Level.INFO "launcher" ("开始训练会话: " ++ sessionIdStr now0),
         Action.run_training]
        (start_training envOk now0 sNoDb).1 := by
  intro h
  have hm : Action.start_training_session (sessionIdStr now0) []
      ∈ (start_training envOk now0 sNoDb).1 := h.subset (by simp)
  simp [start_training, envOk, sNoDb, cfgActsOf, dbActsOf, excActsOf,
    finActsOf, trainingTry] at hm

/-- Claim C5: the registration action emitted by `start_training` carries
the flat mapping of exactly the five scalar hyperparameters read from the
nested configuration object — for arbitrary, unvalidated field values —
and the empty snapshot when the configuration provider is unavailable. -/
theorem c5_config_snapshot (env : TrafficEnv) (now : DateTime) (s : Launcher)
    (ha : env.available = true) (hdb : s.database = true) :
    (Action.start_training_session (sessionIdStr now)
        (match s.config_manager with
         | some cm =>
             [("target_efficiency", CVal.r cm.config.training.target_efficiency),
              ("target_mobility", CVal.r cm.config.training.target_mobility),
              ("max_episodes", CVal.i cm.config.training.max_episodes),
              ("learning_rate", CVal.r cm.config.agent.learning_rate),
              ("num_vehicles", CVal.i cm.config.environment.num_vehicles)]
         | none => []) ∈ (start_training env now s).1)
    ∧ ∀ sid cfg,
        Action.start_training_session sid cfg ∈ (start_training env now s).1 →
          cfg = (match s.config_manager with
                 | some cm => configSnapshot cm.config
                 | none => []) := by
  constructor
  · rw [start_training_trace env now s ha]
    rcases hcm : s.config_manager with _ | cm <;>
      simp [dbActsOf, configDictOf, configSnapshot, hcm, hdb]
  · intro sid cfg h
    have hr := (register_mem_start_training env now s sid cfg h).2
    rcases hcm : s.config_manager with _ | cm <;>
      simpa [configDictOf, hcm] using hr

/-- Witness for C5 at a concrete input. -/
theorem c5_witness :
    Action.start_training_session (sessionIdStr now0)
        [("target_efficiency", CVal.r cm0.config.training.target_efficiency),
         ("target_mobility", CVal.r cm0.config.training.target_mobility),
         ("max_episodes", CVal.i cm0.config.training.max_episodes),
         ("learning_rate", CVal.r cm0.config.agent.learning_rate),
         ("num_vehicles", CVal.i cm0.config.environment.num_vehicles)]
      ∈ (start_training envOk now0 sFull).1 :=
  (c5_config_snapshot envOk now0 sFull rfl rfl).1

/-- Claim C7 (the export engine is modelled from the spec; `database.py`
is not among the visible sources): exporting an unknown session, or to an
unwritable destination, fails non-fatally — `export_data` returns a
failure result instead of raising, the launcher's export menu branch takes
no success path (prints no export-path confirmation), and no file is
created for an unknown session id. -/
theorem c7_export_failure (store : Store) (sid : String) (w : Bool) :
    (lookupSession store.sessions sid = none →
       (export_data store sid ("export_" ++ sid ++ ".json") w).1 = false
       ∧ (exportMenuAction store sid w).1 = []
       ∧ (exportMenuAction store sid w).2 = store)
    ∧ (w = false →
       (exportMenuAction store sid w).1 = []
       ∧ (exportMenuAction store sid w).2.files = store.files) := by
  constructor
  · intro h
    simp [export_data, exportMenuAction, h]
  · intro hw
    subst hw
    rcases h2 : lookupSession store.sessions sid with _ | sess <;>
      simp [export_data, exportMenuAction, h2]

/-- Witness for C7 at a concrete input: exporting an unknown id from the
empty store prints nothing and creates nothing. -/
theorem c7_witness :
    (exportMenuAction store0 "unknown_id" true).1 = []
    ∧ (exportMenuAction store0 "unknown_id" true).2 = store0 :=
  ⟨((c7_export_failure store0 "unknown_id" true).1 rfl).2.1,
   ((c7_export_failure store0 "unknown_id" true).1 rfl).2.2⟩

/-- Claim C8: if the external training system raises during the `try`
block of `start_training` and the database component is available, the
launcher writes an ERROR event from source `launcher` describing the
failure, and only afterwards (in the `finally` block) closes the
session. -/
theorem c8_error_event_before_close (env : TrafficEnv) (now : DateTime)
    (s : Launcher) (e : String)
    (ha : env.available = true) (hdb : s.database = true)
    (hraise : (trainingTry env (sessionIdStr now)).2 = some e) :
    List.Sublist
      [Action.log_event Level.ERROR "launcher" ("训练启动失败: " ++ e),
       Action.end_training_session (sessionIdStr now) [("status", "completed")]]
      (start_training env now s).1 := by
  rw [start_training_trace env now s ha]
  simp only [excActsOf, finActsOf, hraise, hdb, if_true, List.append_assoc]
  refine List.Sublist.cons _ (List.Sublist.cons _ ?_)
  refine List.Sublist.trans ?_ (List.sublist_append_right (cfgActsOf s) _)
  refine List.Sublist.trans ?_
    (List.sublist_append_right (dbActsOf s (sessionIdStr now)) _)
  refine List.Sublist.trans ?_
    (List.sublist_append_right ((trainingTry env (sessionIdStr now)).1) _)
  refine List.Sublist.cons _ ?_
  refine List.Sublist.cons₂ _ ?_
  exact List.Sublist.refl _

/-- Witness for C8 at a concrete input where the run raises `boom`. -/
theorem c8_witness :
    List.Sublist
      [Action.log_event Level.ERROR "launcher" ("训练启动失败: " ++ "boom"),
       Action.end_training_session (sessionIdStr now0) [("status", "completed")]]
      (start_training envBoom now0 sFull).1 :=
  c8_error_event_before_close envBoom now0 sFull "boom" rfl rfl rfl

/-- Claim C9: on every reachable launcher path — a training run, a
deployment run (which closes nothing), the shutdown sequence, the SIGINT
handler, and any main-menu iteration — the result payload passed to
`end_training_session` has status `completed` (the unconditional `finally`
close of `start_training`) or `stopped` (the shutdown path); the launcher
never closes a session with status `failed`. -/
theorem c9_close_status_invariant (env : TrafficEnv) (now : DateTime)
    (s : Launcher) (choice : String) (oc : OpOutcome) (sid : String)
    (r : List (String × String)) :
    (Action.end_training_session sid r ∈ (start_training env now s).1 →
       r = [("status", "completed")])
    ∧ (Action.end_training_session sid r ∈ (start_deployment env s).1 → False)
    ∧ (Action.end_training_session sid r ∈ shutdown s →
       r = [("status", "stopped")])
    ∧ (Action.end_training_session sid r ∈ signal_handler s →
       r = [("status", "stopped")])
    ∧ (Action.end_training_session sid r ∈ (menuIteration env now s choice oc).1 →
       r = [("status", "completed")] ∨ r = [("status", "stopped")]) := by
  have hst : Action.end_training_session sid r ∈ (start_training env now s).1 →
      r = [("status", "completed")] :=
    fun h => (end_mem_start_training env now s sid r h).2
  have hdep : Action.end_training_session sid r ∈ (start_deployment env s).1 →
      False := by
    intro h
    rcases start_deployment_actions env s _ h with ⟨m, h1⟩ | ⟨m, h1⟩ | h1 <;>
      simp at h1
  have hsd : Action.end_training_session sid r ∈ shutdown s →
      r = [("status", "stopped")] :=
    end_mem_shutdown s sid r
  refine ⟨hst, hdep, hsd, ?_, ?_⟩
  · intro h
    simp only [signal_handler, List.mem_cons, List.mem_append,
      List.mem_singleton] at h
    rcases h with h | h | h
    · simp at h
    · exact hsd h
    · simp at h
  · intro h
    rcases oc with _ | e | _
    · have hm2 : Action.end_training_session sid r
          ∈ (menuDispatch env now s choice).1 := by
        simp [menuIteration, menuHeader, sepLine] at h
        exact h
      unfold menuDispatch at hm2
      split_ifs at hm2
      · exact Or.inl (hst hm2)
      · exact absurd hm2 hdep
      · simp at hm2
      · simp at hm2
      · simp at hm2
      · simp at hm2
      · simp at hm2
      · simp at hm2
      · exact Or.inr (hsd hm2)
      · simp at hm2
    · simp [menuIteration, menuHeader, sepLine] at h
    · have hm2 : Action.end_training_session sid r ∈ shutdown s := by
        simp [menuIteration, menuHeader, sepLine] at h
        exact h
      exact Or.inr (hsd hm2)

/-- Witness for C9 at a concrete input: the close action performed by
`shutdown` on a state with a current session carries status `stopped`. -/
theorem c9_witness :
    Action.end_training_session "train_x" [("status", "stopped")]
        ∈ shutdown { config_manager := none, database := true,
                     current_session_id := some "train_x" }
    ∧ ([("status", "stopped")] : List (String × String))
        = [("status", "stopped")] :=
  ⟨by simp [shutdown],
   (c9_close_status_invariant envOk now0
      { config_manager := none, database := true,
        current_session_id := some "train_x" }
      "0" OpOutcome.ok "train_x" [("status", "stopped")]).2.2.1
     (by simp [shutdown])⟩

theorem digitChar_injOn : ∀ a : Nat, a < 10 → ∀ b : Nat, b < 10 →
    Nat.digitChar a = Nat.digitChar b → a = b := by decide

theorem data_mk (l : List Char) : (String.mk l).data = l := rfl

/-- Claim C6: every training session id has the form `train_<timestamp>`
with a second-resolution timestamp `YYYYMMDD_HHMMSS`, so ids generated at
distinct wall-clock seconds are distinct. -/
theorem c6_session_id_format (d1 d2 : DateTime)
    (h1 : validDT d1) (h2 : validDT d2) (hne : d1 ≠ d2) :
    sessionIdStr d1 = "train_" ++ formatTS d1
    ∧ sessionIdStr d1 ≠ sessionIdStr d2 := by
  refine ⟨rfl, fun heq => hne ?_⟩
  obtain ⟨y1, mo1, da1, ho1, mi1, se1⟩ := d1
  obtain ⟨y2, mo2, da2, ho2, mi2, se2⟩ := d2
  simp only [validDT] at h1 h2
  obtain ⟨hy1, hmo1a, hmo1b, hda1a, hda1b, hho1, hmi1, hse1⟩ := h1
  obtain ⟨hy2, hmo2a, hmo2b, hda2a, hda2b, hho2, hmi2, hse2⟩ := h2
  have hdata := congrArg String.data heq
  simp only [sessionIdStr, String.data_append] at hdata
  have hl := List.append_cancel_left hdata
  simp only [formatTS, data_mk, pad4, pad2, List.cons_append, List.nil_append,
    List.cons.injEq, eq_self_iff_true, true_and, and_true] at hl
  obtain ⟨e1, e2, e3, e4, e5, e6, e7, e8, e9, e10, e11, e12, e13, e14⟩ := hl
  have hy : y1 = y2 := by
    have q1 := digitChar_injOn _ (by omega) _ (by omega) e1
    have q2 := digitChar_injOn _ (by omega) _ (by omega) e2
    have q3 := digitChar_injOn _ (by omega) _ (by omega) e3
    have q4 := digitChar_injOn _ (by omega) _ (by omega) e4
    omega
  have hmo : mo1 = mo2 := by
    have q1 := digitChar_injOn _ (by omega) _ (by omega) e5
    have q2 := digitChar_injOn _ (by omega) _ (by omega) e6
    omega
  have hda : da1 = da2 := by
    have q1 := digitChar_injOn _ (by omega) _ (by omega) e7
    have q2 := digitChar_injOn _ (by omega) _ (by omega) e8
    omega
  have hho : ho1 = ho2 := by
    have q1 := digitChar_injOn _ (by omega) _ (by omega) e9
    have q2 := digitChar_injOn _ (by omega) _ (by omega) e10
    omega
  have hmi : mi1 = mi2 := by
    have q1 := digitChar_injOn _ (by omega) _ (by omega) e11
    have q2 := digitChar_injOn _ (by omega) _ (by omega) e12
    omega
  have hse : se1 = se2 := by
    have q1 := digitChar_injOn _ (by omega) _ (by omega) e13
    have q2 := digitChar_injOn _ (by omega) _ (by omega) e14
    omega
  subst hy
  subst hmo
  subst hda
  subst hho
  subst hmi
  subst hse
  rfl

/-- Witness for C6 at two concrete times one second apart. -/
theorem c6_witness : sessionIdStr now0 ≠ sessionIdStr now1 :=
  (c6_session_id_format now0 now1 (by unfold validDT; decide)
    (by unfold validDT; decide) (by decide)).2

end SmartTraffic
